import Mathlib

/-!
Verification development for the Cause-Way decision-analysis pipeline.

The definitions below are a shallow embedding of the Python sources under
`app/`: `config.py`, `schemas.py`, `services/confounder_service.py`,
`services/llm_service.py`, `services/document_service.py` and
`services/decision_analyzer.py`.  Pure functions become Lean functions;
external effects (the Ollama reasoning backend, the ChromaDB retrieval
index, the `dateutil` date parser, the JSON (de)serializers used only to
build prompt text, and the audit database) are passed in explicitly as
function-valued or data-valued parameters, so every definition is
executable.  Machine floats in the source only occur in the confidence
formula `round(1.0 - (days/14)*0.3, 3)`; we model it with exact rationals,
which agrees with the float computation because every value `1 - 3*d/140`
is at distance ≥ 1/2800 - far above double error - from every half-thousandth
boundary, and no exact tie ever occurs (300*d/7 is never an odd integer).
-/

namespace CauseWay

/-! ## String helpers

Python substring containment (`needle in hay`), `str.find`, `str.lower`,
`str.strip` and slicing, modelled on lists of characters.  Lean's
`String.toLower`/`String.trim` match Python's `.lower()`/`.strip()` on the
ASCII text these services handle. -/

/-- `charSeqLead needle hay` : `needle` stands at the head of `hay`. -/
def charSeqLead : List Char → List Char → Bool
  | [], _ => true
  | _ :: _, [] => false
  | a :: as, b :: bs => a == b && charSeqLead as bs

/-- `charSeqOccurs needle hay` : `needle` occurs contiguously in `hay`
(Python `needle in hay`; the empty needle always occurs). -/
def charSeqOccurs (needle : List Char) : List Char → Bool
  | [] => charSeqLead needle []
  | b :: bs => charSeqLead needle (b :: bs) || charSeqOccurs needle bs

/-- Index of the first occurrence of `needle` in `hay` (Python `str.find`,
restricted to the case where the needle is known to occur). -/
def charSeqFind (needle : List Char) : List Char → Option Nat
  | [] => if charSeqLead needle [] then some 0 else none
  | b :: bs =>
    if charSeqLead needle (b :: bs) then some 0
    else (charSeqFind needle bs).map (· + 1)

/-- Python `needle in hay` on strings. -/
def strOccurs (needle hay : String) : Bool :=
  charSeqOccurs needle.toList hay.toList

/-- Python `str.lower()` (`Char.toLower` lowercases the ASCII letters these
services compare). -/
def strLower (s : String) : String := String.mk (s.toList.map Char.toLower)

/-- Python `s[:n]` on strings (slicing by code points). -/
def strTake (s : String) (n : ℕ) : String := String.mk (s.toList.take n)

/-- Python `str.strip()`: drop whitespace from both ends. -/
def strTrim (s : String) : String :=
  String.mk (((s.toList.dropWhile Char.isWhitespace).reverse.dropWhile
    Char.isWhitespace).reverse)

/-! ## Configuration (`app/config.py`) -/

/-- `CONFOUNDING_WINDOW_DAYS = 14` from `config.py`. -/
def CONFOUNDING_WINDOW_DAYS : ℕ := 14

/-- `LLM_MAX_RETRIES = 2` from `config.py`. -/
def LLM_MAX_RETRIES : ℕ := 2

/-! ## Schemas (`app/schemas.py`) -/

/-- `ConfounderInfo` from `schemas.py`. -/
structure ConfounderInfo where
  change_id : String
  description : String
  days_ago : ℤ
  affected_metrics : List String
  confidence : ℚ
deriving DecidableEq

/-- `ParsedQuestion` from `schemas.py`. -/
structure ParsedQuestion where
  treatment : String
  outcomes : List String
  decision_type : String
deriving DecidableEq

/-- `TeamImpact` from `schemas.py`. -/
structure TeamImpact where
  team : String
  affected_metrics : List String
  direction : String
  risk_level : String
deriving DecidableEq

/-! ## Confounder service (`app/services/confounder_service.py`)

A change event is a JSON object read from `company_changes.json`.  The
fields the service reads are `date` (via `change.get("date", "")`, so a
missing key and an empty string behave identically), `affected_metrics`
(via `change.get("affected_metrics", [])`), `id` and `description` (with
defaults `"unknown"` / `"Unknown change"`).  A change whose processing
raises - an unparseable value, a wrong-typed field, an invalid record
construction - is absorbed by the service's per-change `except` clause; we
represent any such change with the `malformed` constructor.  Calendar
dates are modelled as integer day numbers, and `dateutil.parser.parse` as
an explicit parameter `parseDate : String → Option ℤ` (`none` = raises). -/

/-- The well-typed fields of one change event. -/
structure ChangeRecord where
  id : Option String
  description : Option String
  date : String
  affected_metrics : List String
deriving DecidableEq

/-- One entry of the `recent_changes` list: either a well-typed record or a
change whose field access / record construction raises (caught by the
per-change `except Exception` at lines 86-88 of `confounder_service.py`). -/
inductive ChangeInput where
  | ok (c : ChangeRecord)
  | malformed
deriving DecidableEq

/-- Python `round(q, 3)` on the exact rational value of the float being
rounded.  (Python rounds halves to even; Mathlib's `round` rounds halves
up; the two agree here because the confidence formula never produces an
exact half-thousandth - see the header comment.) -/
def pyRound3 (q : ℚ) : ℚ := (round (q * 1000) : ℤ) / 1000

/-- The confidence decay formula of `detect_confounders` (line 74-75):
`round(1.0 - (days_since_change / CONFOUNDING_WINDOW_DAYS) * 0.3, 3)`. -/
def confidenceAt (days : ℤ) : ℚ :=
  pyRound3 (1 - ((days : ℚ) / (CONFOUNDING_WINDOW_DAYS : ℚ)) * (3 / 10))

/-- The body of the per-change loop of `detect_confounders` (lines 46-88):
skip on missing/empty date, on a date `dateutil` cannot parse, on a
malformed change, on `days_since_change` outside `[0, 14]`, and on an
empty metric intersection; otherwise emit one `ConfounderInfo`. -/
def processChange (parseDate : String → Option ℤ) (refDate : ℤ)
    (outcomes : List String) : ChangeInput → Option ConfounderInfo
  | .malformed => none
  | .ok c =>
    if c.date = "" then none
    else
      match parseDate c.date with
      | none => none
      | some d =>
        let days := refDate - d
        if days ≤ (CONFOUNDING_WINDOW_DAYS : ℤ) ∧ 0 ≤ days then
          let inter := (c.affected_metrics.filter (fun m => decide (m ∈ outcomes))).dedup
          if inter = [] then none
          else
            some { change_id := c.id.getD "unknown"
                   description := c.description.getD "Unknown change"
                   days_ago := days
                   affected_metrics := inter
                   confidence := confidenceAt days }
        else none

/-- Comparator of the final `confounders.sort(key=..., reverse=True)`:
`a` may come before `b` when `b.confidence ≤ a.confidence`. -/
def confRel (a b : ConfounderInfo) : Prop := b.confidence ≤ a.confidence

instance : DecidableRel confRel := fun a b =>
  inferInstanceAs (Decidable (b.confidence ≤ a.confidence))

instance : IsTotal ConfounderInfo confRel :=
  ⟨fun a b => (le_total b.confidence a.confidence).imp id id⟩

instance : IsTrans ConfounderInfo confRel :=
  ⟨fun _ _ _ hab hbc => le_trans hbc hab⟩

/-- Return value of `detect_confounders`. -/
structure DetectResult where
  confounders : List ConfounderInfo
  decision_safe : Bool
  total_confounders : ℕ
deriving DecidableEq

/-- `ConfounderService.detect_confounders` (lines 26-99): process every
change in order, sort the surviving records by confidence descending with
a stable sort (Python's `list.sort` is stable; `List.insertionSort`
inserts every element before all later-input ties, which is proved below
to coincide with breaking ties by input position), and report
`decision_safe = (len(confounders) == 0)` and the total count. -/
def detect_confounders (parseDate : String → Option ℤ) (refDate : ℤ)
    (recent_changes : List ChangeInput) (outcomes : List String) : DetectResult :=
  let pre := recent_changes.filterMap (processChange parseDate refDate outcomes)
  let sorted := pre.insertionSort confRel
  { confounders := sorted
    decision_safe := sorted.length = 0
    total_confounders := sorted.length }

/-! ## LLM service (`app/services/llm_service.py`)

The reasoning backend is external: one attempt of the retry loop - the
`ChatOllama.invoke` call followed by `_parse_json_response` and the
construction of the result object - is modelled as a function of the
attempt index and the prompt text, yielding one of three outcomes:

* `connectError` : `httpx.ConnectError` (line 111 / 201);
* `exn msg`      : any other exception, carrying `str(e)`.  In particular,
  an unparseable backend response `text` raises
  `ValueError("Could not parse JSON from response: " + text[:200])`
  at line 88 of `_parse_json_response` - see `malformedMsg`;
* `parsed d`     : the attempt succeeded and produced the dict `d`.

The `except Exception` handler classifies by the *message*: any exception
whose `str(e).lower()` contains `"not found"` is re-raised as
`ModelNotFoundError` (lines 114-115 / 204-205). -/

/-- The two caller-visible errors of `llm_service.py`. -/
inductive LLMError where
  | ollamaUnavailable
  | modelNotFound
deriving DecidableEq

/-- Outcome of one attempt of a retry loop, for a backend producing
parsed dicts of type `δ`. -/
inductive BackendOutcome (δ : Type) where
  | connectError
  | exn (msg : String)
  | parsed (d : δ)

/-- The dict produced by a successful parse attempt of `parse_question`;
`none` models an absent key (read with `.get(key, default)`). -/
structure ParseDict where
  treatment : Option String
  outcomes : Option (List String)
  decision_type : Option String
deriving DecidableEq

/-- The dict produced by a successful parse attempt of
`generate_recommendation`; `none` models an absent key. -/
structure RecDict where
  decision_safe : Option Bool
  confidence_level : Option String
  reasoning : Option String
  suggested_action : Option String
  action_details : Option String
  monitoring_required : Option (List String)
  stop_loss_triggers : Option (List String)
deriving DecidableEq

/-- The `ValueError` message raised by `_parse_json_response` (line 88)
when the backend response `text` admits no JSON extraction:
`f"Could not parse JSON from response: {text[:200]}"`. -/
def malformedMsg (text : String) : String :=
  "Could not parse JSON from response: " ++ strTake text 200

/-- The classification `"not found" in str(e).lower()` of the generic
exception handlers (lines 114 and 204). -/
def hasNotFound (msg : String) : Bool := strOccurs "not found" (strLower msg)

/-- The directive appended to the prompt before each retry
(lines 118 and 208). -/
def retryDirective : String := "\nReturn ONLY JSON, nothing else."

/-- The initial prompt of `parse_question` (lines 92-98). -/
def parsePrompt (question : String) : String :=
  "You are a causal reasoning expert analyzing business decisions.\nQuestion: "
    ++ question
    ++ "\nExtract the following in JSON format:\n1. \"treatment\": What action/change is being proposed?\n2. \"outcomes\": What metrics will this affect? (list)\n3. \"decision_type\": \"impact_analysis\" | \"root_cause\" | \"should_we\"\nReturn ONLY valid JSON, no explanation."

/-- The prompt used by attempt `k` of a retry loop: the base prompt with
`k` copies of the retry directive appended (the loops mutate
`prompt += "\nReturn ONLY JSON, nothing else."` before each retry). -/
def promptAt (base : String) : ℕ → String
  | 0 => base
  | k + 1 => promptAt base k ++ retryDirective

/-- Construction of the `ParsedQuestion` from the backend dict
(lines 106-110), with the `.get` defaults of the source. -/
def mkParsedQuestion (d : ParseDict) : ParsedQuestion :=
  { treatment := d.treatment.getD "unknown"
    outcomes := d.outcomes.getD []
    decision_type := d.decision_type.getD "should_we" }

/-- The fixed action-keyword list of `_rule_based_parse` (line 129). -/
def actionKeywords : List String :=
  ["reduce", "increase", "change", "add", "remove", "launch", "stop"]

/-- The keyword → metric dictionary of `_rule_based_parse` (lines 139-146),
in insertion order (Python dicts iterate in insertion order). -/
def metricKeywords : List (String × String) :=
  [("trial", "trial_to_paid"), ("conversion", "conversion_rate"),
   ("churn", "churn_rate"), ("revenue", "revenue"),
   ("activation", "activation_rate"), ("pricing", "conversion_rate")]

/-- `LLMService._rule_based_parse` (lines 123-160): keyword-derived
treatment excerpt (`question[idx:idx+50].split("?")[0].strip()`), keyword
dictionary lookup for outcomes with default `["conversion_rate"]`, and
why/cause → `root_cause`, else impact/effect → `impact_analysis`, else
`should_we`. -/
def ruleBasedParse (question : String) : ParsedQuestion :=
  let ql := strLower question
  let treatment :=
    match actionKeywords.find? (fun kw => strOccurs kw ql) with
    | none => "unknown_change"
    | some kw =>
      let idx := (charSeqFind kw.toList ql.toList).getD 0
      strTrim (String.mk (((question.toList.drop idx).take 50).takeWhile (fun ch => ch ≠ '?')))
  let outcomes := metricKeywords.filterMap
    (fun p => if strOccurs p.1 ql then some p.2 else none)
  let outcomes := if outcomes = [] then ["conversion_rate"] else outcomes
  let decision_type :=
    if strOccurs "why" ql || strOccurs "cause" ql then "root_cause"
    else if strOccurs "impact" ql || strOccurs "effect" ql then "impact_analysis"
    else "should_we"
  { treatment := treatment, outcomes := outcomes, decision_type := decision_type }

/-- The shared retry shell of `parse_question` (lines 100-121) and
`generate_recommendation` (lines 190-211) - the two loops in the source
are textually identical except for what a successful attempt returns
(`onSuccess`) and what the final fallback returns (`onExhausted`).
`connectError` raises `OllamaUnavailableError`; any other exception whose
message contains `"not found"` raises `ModelNotFoundError`; other
exceptions retry with the directive appended while
`attempt < LLM_MAX_RETRIES`, and the last attempt falls back.  The `fuel`
argument counts the loop iterations that
`for attempt in range(LLM_MAX_RETRIES + 1)` still has to run; the entry
points pass `fuel = LLM_MAX_RETRIES + 1` and the invariant
`fuel = LLM_MAX_RETRIES + 1 - attempt ≥ 1` makes the `fuel = 0` branch
(the Python loop falling off its end, which no iteration allows)
unreachable. -/
def llmRetryLoop {δ ρ : Type} (b : ℕ → String → BackendOutcome δ)
    (onSuccess : δ → ρ) (onExhausted : ρ) :
    (attempt fuel : ℕ) → String → Except LLMError ρ
  | _, 0, _ => .ok onExhausted
  | attempt, fuel + 1, prompt =>
    match b attempt prompt with
    | .connectError => .error .ollamaUnavailable
    | .parsed d => .ok (onSuccess d)
    | .exn msg =>
      if hasNotFound msg then .error .modelNotFound
      else if attempt < LLM_MAX_RETRIES then
        llmRetryLoop b onSuccess onExhausted (attempt + 1) fuel
          (prompt ++ retryDirective)
      else .ok onExhausted

/-- `LLMService.parse_question` (lines 90-121). -/
def parseQuestion (b : ℕ → String → BackendOutcome ParseDict) (q : String) :
    Except LLMError ParsedQuestion :=
  llmRetryLoop b mkParsedQuestion (ruleBasedParse q) 0 (LLM_MAX_RETRIES + 1)
    (parsePrompt q)

/-- `LLMService._rule_based_recommendation` (lines 213-225). -/
def ruleBasedRecommendation (confounders : List ConfounderInfo)
    (outcomes : List String) : RecDict :=
  let has_confounders := decide (0 < confounders.length)
  { decision_safe := some (!has_confounders)
    confidence_level := some "LOW"
    reasoning := some
      ((if has_confounders then
          "Confounders detected - cannot safely attribute changes to proposed treatment."
        else "No recent confounders detected.") ++ " (LLM fallback mode)")
    suggested_action := some (if has_confounders then "WAIT" else "RUN_EXPERIMENT")
    action_details := some
      (if has_confounders then "Review confounders and wait for washout period."
       else "Consider running a controlled experiment.")
    monitoring_required := some (outcomes.take 3)
    stop_loss_triggers := some ["Significant metric degradation", "Unexpected side effects"] }

/-- The initial prompt of `generate_recommendation` (lines 171-188).
The Python `f`-string interpolates `outcomes` with `str()` and
`confounders` with `json.dumps`; those two serializers are external and
passed in as `outcomesStr` / `confsStr`. -/
def recPrompt (outcomesStr : List String → String)
    (confsStr : List ConfounderInfo → String)
    (question treatment : String) (outcomes : List String)
    (confounders : List ConfounderInfo) (relevant_experiments : String) : String :=
  "You are generating a decision brief for business leaders.\nQuestion: "
    ++ question ++ "\nTreatment: " ++ treatment ++ "\nOutcomes: "
    ++ outcomesStr outcomes ++ "\nConfounders Detected: "
    ++ confsStr confounders ++ "\nPast Experiments: " ++ relevant_experiments
    ++ "\nGenerate a recommendation in JSON format:\n\x7b\n\"decision_safe\": true/false,\n\"confidence_level\": \"HIGH|MEDIUM|LOW\",\n\"reasoning\": \"2-3 sentence explanation\",\n\"suggested_action\": \"PROCEED|WAIT|RUN_EXPERIMENT\",\n\"action_details\": \"Specific next steps\",\n\"monitoring_required\": [\"metric1\", \"metric2\"],\n\"stop_loss_triggers\": [\"condition1\", \"condition2\"]\n\x7d\nIf confounders exist, decision_safe MUST be false.\nReturn ONLY valid JSON."

/-- The per-success enforcement of `generate_recommendation`
(lines 197-198): when the confounder list is non-empty,
`result["decision_safe"] = False` overrides the backend dict. -/
def enforceConfounderRule (confounders : List ConfounderInfo) (d : RecDict) : RecDict :=
  if confounders.isEmpty then d else { d with decision_safe := some false }

/-- `LLMService.generate_recommendation` (lines 162-211): the same loop as
`parse_question`, with the confounder rule enforced on every successful
parse and `_rule_based_recommendation` as the fallback. -/
def generateRecommendation (b : ℕ → String → BackendOutcome RecDict)
    (outcomesStr : List String → String)
    (confsStr : List ConfounderInfo → String)
    (question treatment : String) (outcomes : List String)
    (confounders : List ConfounderInfo) (relevant_experiments : String) :
    Except LLMError RecDict :=
  llmRetryLoop b (enforceConfounderRule confounders)
    (ruleBasedRecommendation confounders outcomes) 0 (LLM_MAX_RETRIES + 1)
    (recPrompt outcomesStr confsStr question treatment outcomes confounders
      relevant_experiments)

/-! ## Document service (`app/services/document_service.py`)

The ChromaDB collection is external; one call of `retrieve_context` is
driven by one of three collaborator outcomes: an exception anywhere inside
the `try` (caught at lines 116-118), an empty index (lines 83-85), or a
list of `(document, metadata["type"])` pairs as produced by
`zip(docs, metas)` with `meta.get("type", "unknown")` already applied.
`json.loads` on a KPI document is the external parameter `kpiLoads`
(`none` = `JSONDecodeError`). -/

/-- The collaborator-visible outcome of the ChromaDB interaction inside
`retrieve_context`. -/
inductive RetrievalOutcome where
  | raises (msg : String)
  | emptyIndex
  | results (docs : List (String × String))

/-- The result dict of `retrieve_context` (lines 73-78). -/
structure ContextResult where
  relevant_experiments : String
  relevant_changes : List String
  kpi_info : List (String × String)
  warnings : List String
deriving DecidableEq

/-- Python `dict.update`: existing keys are overwritten in place, new keys
appended in the order of the update. -/
def dictUpdate (base upd : List (String × String)) : List (String × String) :=
  base.map (fun kv => (kv.1, (upd.lookup kv.1).getD kv.2))
    ++ upd.filter (fun kv => (base.lookup kv.1).isNone)

/-- `DocumentService.retrieve_context` (lines 65-120): never raises; an
internal failure is caught and turned into the warning
`"Document retrieval error: " + str(e)`; an empty index yields the warning
`"No documents indexed. Run ingest_documents.py"`; otherwise experiment
documents are joined with `"\n---\n"` (or the fixed placeholder when none
were retrieved) and KPI documents accumulate into `kpi_info` (a document
`json.loads` rejects is stored under the `"raw"` key). -/
def retrieveContext (kpiLoads : String → Option (List (String × String))) :
    RetrievalOutcome → ContextResult
  | .raises msg =>
    { relevant_experiments := "", relevant_changes := [], kpi_info := []
      warnings := ["Document retrieval error: " ++ msg] }
  | .emptyIndex =>
    { relevant_experiments := "", relevant_changes := [], kpi_info := []
      warnings := ["No documents indexed. Run ingest_documents.py"] }
  | .results docs =>
    let experiments := docs.filterMap
      (fun dm => if dm.2 = "experiment" then some dm.1 else none)
    let kpi := docs.foldl
      (fun acc dm =>
        if dm.2 = "kpi" then
          match kpiLoads dm.1 with
          | some m => dictUpdate acc m
          | none => dictUpdate acc [("raw", dm.1)]
        else acc) []
    { relevant_experiments :=
        if experiments.isEmpty then "No relevant experiments found."
        else String.intercalate "\n---\n" experiments
      relevant_changes := []
      kpi_info := kpi
      warnings := [] }

/-! ## Decision analyzer (`app/services/decision_analyzer.py`) -/

/-- The static `TEAM_METRICS` map (lines 25-31), in insertion order. -/
def TEAM_METRICS : List (String × List String) :=
  [("growth", ["conversion_rate", "trial_to_paid", "cac"]),
   ("product", ["activation_rate", "churn_rate", "time_to_value"]),
   ("finance", ["revenue"]),
   ("support", ["nps", "support_satisfaction"]),
   ("operations", [])]

/-- The per-team body of the `_assess_team_impacts` loop (lines 158-177):
for a team whose owned metrics intersect the outcomes, one `TeamImpact`
with that intersection, direction `"uncertain"`, and risk `"low"` without
confounders, `"high"` when the intersection meets the union of the
confounders' affected metrics, `"medium"` otherwise; `none` for a team
without overlap. -/
def teamImpactFor (outcomes : List String) (confounders : List ConfounderInfo)
    (tm : String × List String) : Option TeamImpact :=
  let affected := (tm.2.filter (fun m => decide (m ∈ outcomes))).dedup
  if affected = [] then none
  else
    let risk :=
      if confounders.isEmpty then "low"
      else
        let confounderMetrics : List String :=
          (confounders.map (·.affected_metrics)).flatten
        if affected.any (fun m => decide (m ∈ confounderMetrics)) then "high"
        else "medium"
    some { team := tm.1, affected_metrics := affected
           direction := "uncertain", risk_level := risk }

/-- `DecisionAnalyzer._assess_team_impacts` (lines 149-179). -/
def assessTeamImpacts (outcomes : List String)
    (confounders : List ConfounderInfo) : List TeamImpact :=
  TEAM_METRICS.filterMap (teamImpactFor outcomes confounders)

/-- The response object assembled at lines 120-136 of
`decision_analyzer.py` (`AnalyzeResponse` of `schemas.py`, restricted to
the fields `analyze` populates; `treatment`/`outcomes` always receive the
parsed values, so they are not optional here). -/
structure AnalyzeResponse where
  decision_id : String
  question : String
  treatment : String
  outcomes : List String
  decision_safe : Bool
  confidence_level : String
  suggested_action : String
  reasoning : String
  action_details : Option String
  confounders_detected : List ConfounderInfo
  monitoring_required : Option (List String)
  stop_loss_triggers : Option (List String)
  team_impacts : Option (List TeamImpact)
  warnings : Option (List String)
  created_at : ℤ
deriving DecidableEq

/-- Everything external that one `analyze` call consumes: the generated
decision id and timestamp, the two backend attempt functions, the
retrieval outcome and KPI deserializer, the loaded recent-changes list
(`get_recent_changes` returns `[]` when the JSON file is missing or
unreadable), the date parser and current date of the confounder service,
the two prompt serializers, and the audit-store outcome
(`some msg` = the database write raises). -/
structure Env where
  decisionId : String
  createdAt : ℤ
  parseBackend : ℕ → String → BackendOutcome ParseDict
  recBackend : ℕ → String → BackendOutcome RecDict
  retrieval : RetrievalOutcome
  kpiLoads : String → Option (List (String × String))
  recentChanges : List ChangeInput
  parseDate : String → Option ℤ
  refDate : ℤ
  outcomesStr : List String → String
  confsStr : List ConfounderInfo → String
  auditError : Option String

/-- `DecisionAnalyzer.analyze` (lines 37-147).  The two hard errors of
either LLM call propagate (lines 56-59 and 96-99).  The generic
`except Exception` fallbacks of `analyze` itself (lines 60-67 and 100-111)
are unreachable: `parse_question` and `generate_recommendation` catch all
generic exceptions internally and only ever raise the two hard errors, so
the embedding has no corresponding branch.  Retrieval warnings are merged
(lines 75-76); empty `team_impacts`/`warnings` become `None` in the
response (lines 133-134); a failing audit write appends
`"Decision logging failed"` to the warnings and nothing else
(lines 139-145). -/
def analyze (env : Env) (question : String) : Except LLMError AnalyzeResponse :=
  match parseQuestion env.parseBackend question with
  | .error e => .error e
  | .ok parsed =>
    let context := retrieveContext env.kpiLoads env.retrieval
    let warnings := context.warnings
    let confRes := detect_confounders env.parseDate env.refDate env.recentChanges parsed.outcomes
    let confounders := confRes.confounders
    let decisionSafe := confRes.decision_safe
    match generateRecommendation env.recBackend env.outcomesStr env.confsStr
        question parsed.treatment parsed.outcomes confounders
        context.relevant_experiments with
    | .error e => .error e
    | .ok recc =>
      let teamImpacts := assessTeamImpacts parsed.outcomes confounders
      let response : AnalyzeResponse :=
        { decision_id := env.decisionId
          question := question
          treatment := parsed.treatment
          outcomes := parsed.outcomes
          decision_safe := recc.decision_safe.getD decisionSafe
          confidence_level := recc.confidence_level.getD "LOW"
          suggested_action := recc.suggested_action.getD "WAIT"
          reasoning := recc.reasoning.getD ""
          action_details := recc.action_details
          confounders_detected := confounders
          monitoring_required := recc.monitoring_required
          stop_loss_triggers := recc.stop_loss_triggers
          team_impacts := if teamImpacts.isEmpty then none else some teamImpacts
          warnings := if warnings.isEmpty then none else some warnings
          created_at := env.createdAt }
      match env.auditError with
      | none => .ok response
      | some _ =>
        .ok { response with
              warnings := some ((response.warnings.getD []) ++ ["Decision logging failed"]) }

/-! ## Arithmetic facts about the confidence formula -/

lemma pyRound3_eval (q : ℚ) (n : ℤ) (d : ℕ) (k : ℤ)
    (hq : q * 1000 + 1 / 2 = (n : ℚ) / (d : ℚ)) (hk : n / (d : ℤ) = k) :
    pyRound3 q = (k : ℚ) / 1000 := by
  unfold pyRound3
  rw [round_eq, hq, Rat.floor_intCast_div_natCast, hk]

lemma confidenceAt_zero : confidenceAt 0 = 1 := by
  unfold confidenceAt
  rw [pyRound3_eval _ 2001 2 1000 (by norm_num [CONFOUNDING_WINDOW_DAYS]) (by decide)]
  norm_num

lemma confidenceAt_three : confidenceAt 3 = 936 / 1000 := by
  unfold confidenceAt
  rw [pyRound3_eval _ 13107 14 936 (by norm_num [CONFOUNDING_WINDOW_DAYS])
    (by decide)]
  norm_num

lemma confidenceAt_fourteen : confidenceAt 14 = 7 / 10 := by
  unfold confidenceAt
  rw [pyRound3_eval _ 1401 2 700 (by norm_num [CONFOUNDING_WINDOW_DAYS]) (by decide)]
  norm_num

lemma confidenceAt_anti {d1 d2 : ℤ} (h : d1 ≤ d2) :
    confidenceAt d2 ≤ confidenceAt d1 := by
  unfold confidenceAt pyRound3
  have hc : (d1 : ℚ) ≤ (d2 : ℚ) := by exact_mod_cast h
  have hle : (1 - (d2 : ℚ) / (CONFOUNDING_WINDOW_DAYS : ℚ) * (3 / 10)) * 1000
      ≤ (1 - (d1 : ℚ) / (CONFOUNDING_WINDOW_DAYS : ℚ) * (3 / 10)) * 1000 := by
    simp only [CONFOUNDING_WINDOW_DAYS, Nat.cast_ofNat]
    linarith
  have hfloor :
      round ((1 - (d2 : ℚ) / (CONFOUNDING_WINDOW_DAYS : ℚ) * (3 / 10)) * 1000)
        ≤ round ((1 - (d1 : ℚ) / (CONFOUNDING_WINDOW_DAYS : ℚ) * (3 / 10)) * 1000) := by
    rw [round_eq, round_eq]
    exact Int.floor_le_floor (by linarith)
  have hcast :
      ((round ((1 - (d2 : ℚ) / (CONFOUNDING_WINDOW_DAYS : ℚ) * (3 / 10)) * 1000) : ℤ) : ℚ)
        ≤ ((round ((1 - (d1 : ℚ) / (CONFOUNDING_WINDOW_DAYS : ℚ) * (3 / 10)) * 1000) : ℤ) : ℚ) := by
    exact_mod_cast hfloor
  linarith

lemma confidenceAt_bounds {d : ℤ} (h0 : 0 ≤ d)
    (h14 : d ≤ (CONFOUNDING_WINDOW_DAYS : ℤ)) :
    7 / 10 ≤ confidenceAt d ∧ confidenceAt d ≤ 1 := by
  have h14' : d ≤ (14 : ℤ) := by
    simpa [CONFOUNDING_WINDOW_DAYS] using h14
  constructor
  · have := confidenceAt_anti h14'
    rwa [confidenceAt_fourteen] at this
  · have := confidenceAt_anti h0
    rwa [confidenceAt_zero] at this

/-! ## Reference definition of the detector (claim C2)

`specConfounderRecord` and `detectSpec` are written from the
specification's words (§4.1, §8): a record is emitted for a change iff its
date is present and parses, `0 ≤ days_ago ≤ WINDOW`, and the metric
intersection is non-empty; the final list is those records sorted by
confidence descending with ties broken by input position. -/

/-- Reference per-change rule, following the spec's words. -/
def specConfounderRecord (parseDate : String → Option ℤ) (refDate : ℤ)
    (outcomes : List String) : ChangeInput → Option ConfounderInfo
  | .malformed => none
  | .ok c =>
    if c.date = "" then none
    else
      match parseDate c.date with
      | none => none
      | some d =>
        let days_ago := refDate - d
        if 0 ≤ days_ago ∧ days_ago ≤ (CONFOUNDING_WINDOW_DAYS : ℤ) then
          let inter := (c.affected_metrics.filter (fun m => decide (m ∈ outcomes))).dedup
          if inter = [] then none
          else
            some { change_id := c.id.getD "unknown"
                   description := c.description.getD "Unknown change"
                   days_ago := days_ago
                   affected_metrics := inter
                   confidence := confidenceAt days_ago }
        else none

/-- Confidence-descending order on indexed records, ties broken by input
position: the spec's "sorted by confidence descending with ties kept in
input order". -/
def confRelAt (x y : ℕ × ConfounderInfo) : Prop :=
  confRel x.2 y.2 ∧ (confRel y.2 x.2 → x.1 ≤ y.1)

instance : DecidableRel confRelAt := fun x y =>
  decidable_of_iff (confRel x.2 y.2 ∧ (confRel y.2 x.2 → x.1 ≤ y.1)) Iff.rfl

instance : IsTotal (ℕ × ConfounderInfo) confRelAt := by
  constructor
  intro x y
  rcases le_total y.2.confidence x.2.confidence with h | h
  · by_cases h2 : x.2.confidence ≤ y.2.confidence
    · rcases Nat.le_total x.1 y.1 with hi | hi
      · exact Or.inl ⟨h, fun _ => hi⟩
      · exact Or.inr ⟨h2, fun _ => hi⟩
    · exact Or.inl ⟨h, fun hc => absurd hc h2⟩
  · by_cases h2 : y.2.confidence ≤ x.2.confidence
    · rcases Nat.le_total x.1 y.1 with hi | hi
      · exact Or.inl ⟨h2, fun _ => hi⟩
      · exact Or.inr ⟨h, fun _ => hi⟩
    · exact Or.inr ⟨h, fun hc => absurd hc h2⟩

instance : IsTrans (ℕ × ConfounderInfo) confRelAt := by
  constructor
  intro x y z hxy hyz
  refine ⟨le_trans hyz.1 hxy.1, fun hzx => ?_⟩
  exact le_trans (hxy.2 (le_trans hzx hyz.1)) (hyz.2 (le_trans hxy.1 hzx))

/-- Reference detector, following the spec's words. -/
def detectSpec (parseDate : String → Option ℤ) (refDate : ℤ)
    (recent_changes : List ChangeInput) (outcomes : List String) : DetectResult :=
  let pre := recent_changes.filterMap (specConfounderRecord parseDate refDate outcomes)
  let sorted := (List.insertionSort confRelAt pre.enum).map Prod.snd
  { confounders := sorted
    decision_safe := sorted.isEmpty
    total_confounders := sorted.length }

/-! ### The insertion sort used by the source is stable -/

lemma le_fst_of_mem_enumFrom {α : Type} {n : ℕ} {p : ℕ × α} :
    ∀ {l : List α}, p ∈ l.enumFrom n → n ≤ p.1 := by
  intro l
  induction l generalizing n with
  | nil => intro h; simp at h
  | cons x xs ih =>
    intro h
    rw [List.enumFrom_cons] at h
    rcases List.mem_cons.mp h with h | h
    · subst h; exact Nat.le_refl n
    · exact Nat.le_trans (Nat.le_succ n) (ih h)

lemma map_snd_orderedInsert (x : ℕ × ConfounderInfo) :
    ∀ (L : List (ℕ × ConfounderInfo)), (∀ p ∈ L, x.1 < p.1) →
      (List.orderedInsert confRelAt x L).map Prod.snd
        = List.orderedInsert confRel x.2 (L.map Prod.snd) := by
  intro L
  induction L with
  | nil => intro _; simp [List.orderedInsert]
  | cons y ys ih =>
    intro hlt
    have hxy : x.1 < y.1 := hlt y (List.mem_cons_self y ys)
    by_cases h : confRel x.2 y.2
    · have hAt : confRelAt x y := ⟨h, fun _ => Nat.le_of_lt hxy⟩
      rw [List.orderedInsert, if_pos hAt, List.map_cons, List.map_cons,
        List.orderedInsert, if_pos h]
    · have hAt : ¬ confRelAt x y := fun hc => h hc.1
      rw [List.orderedInsert, if_neg hAt, List.map_cons, List.map_cons,
        List.orderedInsert, if_neg h,
        ih (fun p hp => hlt p (List.mem_cons_of_mem _ hp))]

lemma map_snd_insertionSort : ∀ (i : ℕ) (l : List ConfounderInfo),
    (List.insertionSort confRelAt (l.enumFrom i)).map Prod.snd
      = List.insertionSort confRel l := by
  intro i l
  induction l generalizing i with
  | nil => simp [List.insertionSort]
  | cons x xs ih =>
    rw [List.enumFrom_cons]
    simp only [List.insertionSort]
    rw [map_snd_orderedInsert _ _ (fun p hp => by
      have hp' : p ∈ xs.enumFrom (i + 1) := (List.mem_insertionSort confRelAt).mp hp
      have := le_fst_of_mem_enumFrom hp'
      omega)]
    rw [ih (i + 1)]

lemma processChange_eq_spec (pd : String → Option ℤ) (rd : ℤ) (oc : List String)
    (ci : ChangeInput) :
    processChange pd rd oc ci = specConfounderRecord pd rd oc ci := by
  cases ci with
  | malformed => rfl
  | ok c =>
    simp only [processChange, specConfounderRecord]
    by_cases hD : c.date = ""
    · simp [hD]
    · simp only [hD, if_false]
      cases hP : pd c.date with
      | none => rfl
      | some d =>
        by_cases h1 : rd - d ≤ (CONFOUNDING_WINDOW_DAYS : ℤ) <;>
          by_cases h2 : 0 ≤ rd - d <;>
            simp [h1, h2]

lemma decide_length_eq_zero {α : Type} (l : List α) :
    decide (l.length = 0) = l.isEmpty := by
  cases l <;> simp

lemma processChange_some_props {pd : String → Option ℤ} {rd : ℤ}
    {oc : List String} {ci : ChangeInput} {r : ConfounderInfo}
    (h : processChange pd rd oc ci = some r) :
    r.confidence = confidenceAt r.days_ago ∧ 0 ≤ r.days_ago ∧
      r.days_ago ≤ (CONFOUNDING_WINDOW_DAYS : ℤ) ∧ r.affected_metrics ≠ [] := by
  cases ci with
  | malformed => simp [processChange] at h
  | ok c =>
    simp only [processChange] at h
    by_cases hD : c.date = ""
    · simp [hD] at h
    · rw [if_neg hD] at h
      cases hP : pd c.date with
      | none => rw [hP] at h; cases h
      | some d =>
        rw [hP] at h
        dsimp only at h
        by_cases h1 : rd - d ≤ (CONFOUNDING_WINDOW_DAYS : ℤ) ∧ 0 ≤ rd - d
        · rw [if_pos h1] at h
          by_cases h2 :
              (c.affected_metrics.filter (fun m => decide (m ∈ oc))).dedup = []
          · rw [if_pos h2] at h; cases h
          · rw [if_neg h2] at h
            cases h
            exact ⟨rfl, h1.2, h1.1, h2⟩
        · rw [if_neg h1] at h; cases h

lemma detect_eq_spec (pd : String → Option ℤ) (rd : ℤ)
    (changes : List ChangeInput) (oc : List String) :
    detect_confounders pd rd changes oc = detectSpec pd rd changes oc := by
  unfold detect_confounders detectSpec
  rw [show processChange pd rd oc = specConfounderRecord pd rd oc from
    funext (processChange_eq_spec pd rd oc)]
  simp only [List.enum_eq_enumFrom, map_snd_insertionSort, decide_length_eq_zero]

/-- **C2.** `detect_confounders` equals the reference definition written
from the spec: records are emitted exactly for changes whose date is
present and parses, whose whole-day age lies in `[0, WINDOW]` and whose
metrics meet the outcomes, carrying the metric intersection and
`round(1.0 - (days_ago/WINDOW)*0.3, 3)` as confidence; the result is that
record list sorted by confidence descending with ties kept in input order,
`decision_safe` iff the list is empty, and `total_confounders` its length.
Additionally: every emitted confidence satisfies the formula and lies in
`[0.7, 1]`, the formula is monotonically non-increasing in `days_ago`, and
`days_ago = 3` under the default window gives `0.936`. -/
theorem detect_confounders_meets_spec (pd : String → Option ℤ) (rd : ℤ)
    (changes : List ChangeInput) (oc : List String) :
    detect_confounders pd rd changes oc = detectSpec pd rd changes oc
    ∧ (detect_confounders pd rd changes oc).confounders.Pairwise confRel
    ∧ (∀ r ∈ (detect_confounders pd rd changes oc).confounders,
        r.confidence = confidenceAt r.days_ago ∧ 0 ≤ r.days_ago ∧
        r.days_ago ≤ (CONFOUNDING_WINDOW_DAYS : ℤ) ∧
        7 / 10 ≤ r.confidence ∧ r.confidence ≤ 1 ∧ r.affected_metrics ≠ [])
    ∧ (∀ d1 d2 : ℤ, d1 ≤ d2 → confidenceAt d2 ≤ confidenceAt d1)
    ∧ confidenceAt 3 = 936 / 1000
    ∧ (detect_confounders pd rd changes oc).decision_safe
        = (detect_confounders pd rd changes oc).confounders.isEmpty
    ∧ (detect_confounders pd rd changes oc).total_confounders
        = (detect_confounders pd rd changes oc).confounders.length := by
  refine ⟨detect_eq_spec pd rd changes oc, ?_, ?_, ?_, confidenceAt_three, ?_, ?_⟩
  · exact List.sorted_insertionSort confRel _
  · intro r hr
    simp only [detect_confounders] at hr
    have hr' : r ∈ (changes.filterMap (processChange pd rd oc)) :=
      (List.mem_insertionSort confRel).mp hr
    obtain ⟨ci, _, hci⟩ := List.mem_filterMap.mp hr'
    obtain ⟨hconf, h0, h14, hne⟩ := processChange_some_props hci
    obtain ⟨hlo, hhi⟩ := confidenceAt_bounds h0 h14
    exact ⟨hconf, h0, h14, hconf ▸ hlo, hconf ▸ hhi, hne⟩
  · exact fun d1 d2 h => confidenceAt_anti h
  · simp only [detect_confounders]
    exact decide_length_eq_zero _
  · rfl

/-- Witness for C2: the spec's worked example - reference date 2026-01-18,
a change dated 2026-01-15 affecting three metrics, outcomes containing
`conversion_rate` - produces exactly one record with `days_ago = 3` and
confidence `0.936`, `decision_safe = false`, and the monotonicity and
bound conjuncts applied at that record. -/
theorem detect_confounders_meets_spec_witness :
    (detect_confounders (fun s => if s = "2026-01-15" then some 15 else none) 18
        [ChangeInput.ok ⟨some "chg-042", some "Pricing page redesign", "2026-01-15",
          ["conversion_rate", "revenue", "churn_rate"]⟩]
        ["conversion_rate", "activation_rate"]).confounders
      = [⟨"chg-042", "Pricing page redesign", 3, ["conversion_rate"], confidenceAt 3⟩]
    ∧ confidenceAt 3 = 936 / 1000
    ∧ (7 / 10 ≤ confidenceAt 3 ∧ confidenceAt 3 ≤ 1)
    ∧ confidenceAt 3 ≤ confidenceAt 0
    ∧ (detect_confounders (fun s => if s = "2026-01-15" then some 15 else none) 18
        [ChangeInput.ok ⟨some "chg-042", some "Pricing page redesign", "2026-01-15",
          ["conversion_rate", "revenue", "churn_rate"]⟩]
        ["conversion_rate", "activation_rate"]).decision_safe = false := by
  have hmem :
      (⟨"chg-042", "Pricing page redesign", 3, ["conversion_rate"], confidenceAt 3⟩ :
          ConfounderInfo)
        ∈ (detect_confounders (fun s => if s = "2026-01-15" then some 15 else none) 18
            [ChangeInput.ok ⟨some "chg-042", some "Pricing page redesign", "2026-01-15",
              ["conversion_rate", "revenue", "churn_rate"]⟩]
            ["conversion_rate", "activation_rate"]).confounders := by
    rw [show (detect_confounders (fun s => if s = "2026-01-15" then some 15 else none) 18
        [ChangeInput.ok ⟨some "chg-042", some "Pricing page redesign", "2026-01-15",
          ["conversion_rate", "revenue", "churn_rate"]⟩]
        ["conversion_rate", "activation_rate"]).confounders
      = [⟨"chg-042", "Pricing page redesign", 3, ["conversion_rate"], confidenceAt 3⟩]
      from rfl]
    exact List.mem_singleton.mpr rfl
  have hthm := detect_confounders_meets_spec
    (fun s => if s = "2026-01-15" then some 15 else none) 18
    [ChangeInput.ok ⟨some "chg-042", some "Pricing page redesign", "2026-01-15",
      ["conversion_rate", "revenue", "churn_rate"]⟩]
    ["conversion_rate", "activation_rate"]
  obtain ⟨-, -, hprops, hanti, hval, -, -⟩ := hthm
  obtain ⟨-, -, -, hlo, hhi, -⟩ := hprops _ hmem
  exact ⟨rfl, hval, ⟨by simpa using hlo, by simpa using hhi⟩,
    hanti 0 3 (by decide), rfl⟩

/-- **C4.** `detect_confounders` is total over arbitrary change inputs (it
returns a plain `DetectResult`, never an error): a change with a
missing/empty date, a date the parser rejects, or one whose processing
raises contributes no record, and removing such a change from anywhere in
the input leaves the result of the whole call unchanged - so it neither
aborts nor alters the processing of the remaining changes. -/
theorem detect_confounders_skips_malformed (pd : String → Option ℤ) (rd : ℤ)
    (oc : List String) :
    processChange pd rd oc .malformed = none
    ∧ (∀ c : ChangeRecord, c.date = "" → processChange pd rd oc (.ok c) = none)
    ∧ (∀ c : ChangeRecord, pd c.date = none → processChange pd rd oc (.ok c) = none)
    ∧ (∀ (xs ys : List ChangeInput) (m : ChangeInput),
        processChange pd rd oc m = none →
        detect_confounders pd rd (xs ++ m :: ys) oc
          = detect_confounders pd rd (xs ++ ys) oc) := by
  refine ⟨rfl, ?_, ?_, ?_⟩
  · intro c hc
    simp [processChange, hc]
  · intro c hc
    simp only [processChange]
    by_cases hD : c.date = ""
    · simp [hD]
    · simp [hD, hc]
  · intro xs ys m hm
    simp only [detect_confounders, List.filterMap_append, List.filterMap_cons, hm]

/-- Witness for C4: a date-bearing change that `dateutil` rejects yields no
record, and deleting a malformed change from the middle of a batch leaves
the detection result unchanged. -/
theorem detect_confounders_skips_malformed_witness :
    processChange (fun _ => none) 0 ["m"] (.ok ⟨none, none, "not-a-date", ["m"]⟩) = none
    ∧ detect_confounders (fun _ => none) 0
        [ChangeInput.malformed, .ok ⟨none, none, "not-a-date", ["m"]⟩] ["m"]
      = detect_confounders (fun _ => none) 0
        [.ok ⟨none, none, "not-a-date", ["m"]⟩] ["m"] := by
  refine ⟨(detect_confounders_skips_malformed (fun _ => none) 0 ["m"]).2.2.1 _ rfl, ?_⟩
  exact (detect_confounders_skips_malformed (fun _ => none) 0 ["m"]).2.2.2
    [] [.ok ⟨none, none, "not-a-date", ["m"]⟩] .malformed rfl

/-! ### The rule-based parser (claims C5, C9) -/

lemma ruleBasedParse_outcomes (q : String) :
    (ruleBasedParse q).outcomes =
      (if metricKeywords.filterMap
            (fun p => if strOccurs p.1 (strLower q) then some p.2 else none) = []
        then ["conversion_rate"]
        else metricKeywords.filterMap
          (fun p => if strOccurs p.1 (strLower q) then some p.2 else none)) := rfl

lemma ruleBasedParse_decision_type (q : String) :
    (ruleBasedParse q).decision_type =
      (if (strOccurs "why" (strLower q) || strOccurs "cause" (strLower q))
        then "root_cause"
        else if (strOccurs "impact" (strLower q) || strOccurs "effect" (strLower q))
          then "impact_analysis"
          else "should_we") := rfl

lemma ruleBasedParse_outcomes_ne_nil (q : String) : (ruleBasedParse q).outcomes ≠ [] := by
  rw [ruleBasedParse_outcomes]
  by_cases h : metricKeywords.filterMap
      (fun p => if strOccurs p.1 (strLower q) then some p.2 else none) = []
  · simp [h]
  · simp [h]

/-- **C5.** The rule-based fallback parser is a total function (so it never
raises); its outcomes list is never empty, and defaults to the single
baseline metric `conversion_rate` when no metric keyword occurs in the
lowercased question; its decision type is `root_cause` when why/cause
language is present, `impact_analysis` when impact/effect language is
present (and no why/cause language takes precedence), and `should_we`
otherwise. -/
theorem rule_based_parse_safe (q : String) :
    (ruleBasedParse q).outcomes ≠ []
    ∧ ((∀ p ∈ metricKeywords, strOccurs p.1 (strLower q) = false) →
        (ruleBasedParse q).outcomes = ["conversion_rate"])
    ∧ ((strOccurs "why" (strLower q) || strOccurs "cause" (strLower q)) = true →
        (ruleBasedParse q).decision_type = "root_cause")
    ∧ ((strOccurs "why" (strLower q) || strOccurs "cause" (strLower q)) = false →
        (strOccurs "impact" (strLower q) || strOccurs "effect" (strLower q)) = true →
        (ruleBasedParse q).decision_type = "impact_analysis")
    ∧ ((strOccurs "why" (strLower q) || strOccurs "cause" (strLower q)) = false →
        (strOccurs "impact" (strLower q) || strOccurs "effect" (strLower q)) = false →
        (ruleBasedParse q).decision_type = "should_we") := by
  refine ⟨ruleBasedParse_outcomes_ne_nil q, ?_, ?_, ?_, ?_⟩
  · intro hall
    have h1 := hall ("trial", "trial_to_paid") (by simp [metricKeywords])
    have h2 := hall ("conversion", "conversion_rate") (by simp [metricKeywords])
    have h3 := hall ("churn", "churn_rate") (by simp [metricKeywords])
    have h4 := hall ("revenue", "revenue") (by simp [metricKeywords])
    have h5 := hall ("activation", "activation_rate") (by simp [metricKeywords])
    have h6 := hall ("pricing", "conversion_rate") (by simp [metricKeywords])
    rw [ruleBasedParse_outcomes]
    simp [metricKeywords, h1, h2, h3, h4, h5, h6]
  · intro h
    rw [ruleBasedParse_decision_type, if_pos h]
  · intro h h'
    rw [ruleBasedParse_decision_type, h, if_neg (by simp), if_pos h']
  · intro h h'
    rw [ruleBasedParse_decision_type, h, if_neg (by simp), h', if_neg (by simp)]

/-- Witness for C5: concrete questions exercising the default-outcome case
and all three decision types. -/
theorem rule_based_parse_safe_witness :
    (ruleBasedParse "Should we ship it?").outcomes = ["conversion_rate"]
    ∧ (ruleBasedParse "Why did churn increase?").decision_type = "root_cause"
    ∧ (ruleBasedParse "What is the impact on revenue?").decision_type = "impact_analysis"
    ∧ (ruleBasedParse "Should we reduce the trial?").decision_type = "should_we"
    ∧ (ruleBasedParse "Should we ship it?").outcomes ≠ [] := by
  refine ⟨(rule_based_parse_safe "Should we ship it?").2.1 (by decide),
    (rule_based_parse_safe "Why did churn increase?").2.2.1 (by decide),
    (rule_based_parse_safe "What is the impact on revenue?").2.2.2.1 (by decide) (by decide),
    (rule_based_parse_safe "Should we reduce the trial?").2.2.2.2 (by decide) (by decide),
    (rule_based_parse_safe "Should we ship it?").1⟩

/-- **C6.** The rule-based fallback recommendation brief: safe iff no
confounders, confidence always `LOW`, action `WAIT` with confounders and
`RUN_EXPERIMENT` without, monitoring the first three outcome metrics, and
the fixed generic stop-loss triggers. -/
theorem rule_based_recommendation_spec (confs : List ConfounderInfo)
    (oc : List String) :
    (ruleBasedRecommendation confs oc).decision_safe = some confs.isEmpty
    ∧ (ruleBasedRecommendation confs oc).confidence_level = some "LOW"
    ∧ (ruleBasedRecommendation confs oc).suggested_action
        = some (if confs.isEmpty then "RUN_EXPERIMENT" else "WAIT")
    ∧ (ruleBasedRecommendation confs oc).monitoring_required = some (oc.take 3)
    ∧ (ruleBasedRecommendation confs oc).stop_loss_triggers
        = some ["Significant metric degradation", "Unexpected side effects"] := by
  cases confs <;> simp [ruleBasedRecommendation]

/-! ### Team impact assessment (claim C7) -/

lemma filterMap_reject_or_emit {α β : Type} (cond : α → Bool) (g : α → β) :
    ∀ l : List α,
      l.filterMap (fun a => if cond a then none else some (g a))
        = (l.filter (fun a => !cond a)).map g := by
  intro l
  induction l with
  | nil => rfl
  | cons x xs ih =>
    by_cases h : cond x <;>
      simp [List.filterMap_cons, List.filter_cons, h, ih]

lemma countP_fst_filter_nodup :
    ∀ (l : List (String × List String)), (l.map Prod.fst).Nodup →
      ∀ (team : String) (ms : List String), (team, ms) ∈ l →
        ∀ (cond : String × List String → Bool),
          ((l.filter cond).map Prod.fst).countP (fun s => decide (s = team))
            = if cond (team, ms) then 1 else 0 := by
  intro l
  induction l with
  | nil => intro _ team ms h; simp at h
  | cons p l' ih =>
    intro hnd team ms hmem cond
    rw [List.map_cons] at hnd
    have hhead := (List.nodup_cons.mp hnd).1
    have htailnd := (List.nodup_cons.mp hnd).2
    rcases List.mem_cons.mp hmem with heq | hmem'
    · have hp : p = (team, ms) := heq.symm
      subst hp
      have htail : ((l'.filter cond).map Prod.fst).countP
          (fun s => decide (s = team)) = 0 := by
        rw [List.countP_eq_zero]
        intro s hs
        obtain ⟨x, hx, rfl⟩ := List.mem_map.mp hs
        have hx' : x.1 ∈ l'.map Prod.fst :=
          List.mem_map.mpr ⟨x, (List.mem_filter.mp hx).1, rfl⟩
        simp only [decide_eq_true_eq]
        intro hst
        exact hhead (hst ▸ hx')
      by_cases hc : cond (team, ms) <;>
        simp [List.filter_cons, hc, List.countP_cons, htail]
    · have hp1 : ¬ (p.1 = team) := by
        intro h
        exact hhead (h ▸ List.mem_map.mpr ⟨(team, ms), hmem', rfl⟩)
      have ih' := ih htailnd team ms hmem' cond
      by_cases hc : cond p <;>
        simp [List.filter_cons, hc, List.countP_cons, ih', hp1]

lemma map_team_assessTeamImpacts (oc : List String) (confs : List ConfounderInfo) :
    (assessTeamImpacts oc confs).map (fun t => t.team)
      = (TEAM_METRICS.filter
          (fun p => !(decide ((p.2.filter (fun m => decide (m ∈ oc))).dedup = [])))).map
            Prod.fst := by
  rw [assessTeamImpacts, List.map_filterMap]
  rw [show (fun x : String × List String =>
        (teamImpactFor oc confs x).map (fun t : TeamImpact => t.team))
      = (fun x : String × List String =>
          if decide ((x.2.filter (fun m => decide (m ∈ oc))).dedup = [])
            then none else some x.1) from funext (fun tm => by
        by_cases h : (tm.2.filter (fun m => decide (m ∈ oc))).dedup = [] <;>
          simp [teamImpactFor, h])]
  exact filterMap_reject_or_emit _ _ _

lemma teamImpactFor_some {oc : List String} {confs : List ConfounderInfo}
    {tm : String × List String} {t : TeamImpact}
    (h : teamImpactFor oc confs tm = some t) :
    t.team = tm.1
    ∧ t.affected_metrics = (tm.2.filter (fun m => decide (m ∈ oc))).dedup
    ∧ t.affected_metrics ≠ []
    ∧ t.direction = "uncertain"
    ∧ t.risk_level = (if confs.isEmpty then "low"
        else if t.affected_metrics.any
            (fun m => decide (m ∈ (confs.map (·.affected_metrics)).flatten))
          then "high" else "medium") := by
  simp only [teamImpactFor] at h
  by_cases hd : (tm.2.filter (fun m => decide (m ∈ oc))).dedup = []
  · rw [if_pos hd] at h; cases h
  · rw [if_neg hd] at h
    cases h
    exact ⟨rfl, rfl, hd, rfl, rfl⟩

/-- **C7.** The team impact assessment: the emitted records are exactly one
per team of `TEAM_METRICS` (in map order) whose owned metrics intersect
the outcomes - teams without overlap are omitted entirely; each record
carries the owned/outcome intersection as `affected_metrics`, direction
always `"uncertain"`, and risk `"low"` when no confounders exist, `"high"`
when the record's metrics meet the union of the confounders' affected
metrics, `"medium"` otherwise. -/
theorem assess_team_impacts_spec (oc : List String) (confs : List ConfounderInfo) :
    (assessTeamImpacts oc confs).map (fun t => t.team)
      = (TEAM_METRICS.filter
          (fun p => !(decide ((p.2.filter (fun m => decide (m ∈ oc))).dedup = [])))).map
            Prod.fst
    ∧ (∀ (team : String) (ms : List String), (team, ms) ∈ TEAM_METRICS →
        (assessTeamImpacts oc confs).countP (fun t => decide (t.team = team))
          = if (ms.filter (fun m => decide (m ∈ oc))).dedup = [] then 0 else 1)
    ∧ (∀ t ∈ assessTeamImpacts oc confs,
        ∃ ms, (t.team, ms) ∈ TEAM_METRICS
          ∧ (∀ m, m ∈ t.affected_metrics ↔ m ∈ ms ∧ m ∈ oc)
          ∧ t.affected_metrics ≠ []
          ∧ t.direction = "uncertain"
          ∧ t.risk_level = (if confs = [] then "low"
              else if ∃ m ∈ t.affected_metrics, ∃ c ∈ confs, m ∈ c.affected_metrics
                then "high" else "medium")) := by
  refine ⟨map_team_assessTeamImpacts oc confs, ?_, ?_⟩
  · intro team ms hmem
    have hmapcount : (assessTeamImpacts oc confs).countP (fun t => decide (t.team = team))
        = ((assessTeamImpacts oc confs).map (fun t => t.team)).countP
            (fun s => decide (s = team)) := by
      rw [List.countP_map]
      rfl
    rw [hmapcount, map_team_assessTeamImpacts oc confs]
    rw [countP_fst_filter_nodup TEAM_METRICS (by decide) team ms hmem]
    by_cases h : (ms.filter (fun m => decide (m ∈ oc))).dedup = [] <;> simp [h]
  · intro t ht
    obtain ⟨tm, htm, hsome⟩ := List.mem_filterMap.mp ht
    obtain ⟨hteam, haff, hne, hdir, hrisk⟩ := teamImpactFor_some hsome
    refine ⟨tm.2, ?_, ?_, hne, hdir, ?_⟩
    · rw [hteam]
      exact (Prod.mk.eta (p := tm)) ▸ htm
    · intro m
      rw [haff]
      simp [List.mem_dedup, List.mem_filter]
    · rw [hrisk]
      cases confs with
      | nil => simp
      | cons c0 cs =>
        have hiff : (t.affected_metrics.any
            (fun m => decide (m ∈ ((c0 :: cs).map (·.affected_metrics)).flatten)) = true)
            ↔ (∃ m ∈ t.affected_metrics, ∃ c ∈ c0 :: cs, m ∈ c.affected_metrics) := by
          simp only [List.any_eq_true, decide_eq_true_eq, List.mem_flatten, List.mem_map]
          constructor
          · rintro ⟨m, hm, l, ⟨c, hc, rfl⟩, hml⟩
            exact ⟨m, hm, c, hc, hml⟩
          · rintro ⟨m, hm, c, hc, hml⟩
            exact ⟨m, hm, c.affected_metrics, ⟨c, hc, rfl⟩, hml⟩
        by_cases hany : t.affected_metrics.any
            (fun m => decide (m ∈ ((c0 :: cs).map (·.affected_metrics)).flatten)) = true
        · simp only [List.isEmpty_cons, Bool.false_eq_true, if_false, hany, if_true]
          rw [if_neg (by simp), if_pos (hiff.mp hany)]
        · have hany' : ¬ (∃ m ∈ t.affected_metrics, ∃ c ∈ c0 :: cs, m ∈ c.affected_metrics) :=
            fun hex => hany (hiff.mpr hex)
          simp only [List.isEmpty_cons, Bool.false_eq_true, if_false,
            Bool.not_eq_true] at hany ⊢
          rw [hany, if_neg (by simp), if_neg hany']
          simp

/-- Witness for C7: outcomes `{conversion_rate, revenue}` with one
confounder touching `revenue` - growth and finance are emitted (in that
order), finance exactly once, and the finance record's intersection with
the confounder union makes it high-risk while its direction stays
uncertain. -/
theorem assess_team_impacts_spec_witness :
    (assessTeamImpacts ["conversion_rate", "revenue"]
        [⟨"c1", "d", 0, ["revenue"], confidenceAt 0⟩]).map (fun t => t.team)
      = ["growth", "finance"]
    ∧ (assessTeamImpacts ["conversion_rate", "revenue"]
        [⟨"c1", "d", 0, ["revenue"], confidenceAt 0⟩]).countP
          (fun t => decide (t.team = "finance")) = 1
    ∧ (⟨"finance", ["revenue"], "uncertain", "high"⟩ : TeamImpact).direction
        = "uncertain" := by
  refine ⟨?_, ?_, ?_⟩
  · exact (assess_team_impacts_spec ["conversion_rate", "revenue"]
      [⟨"c1", "d", 0, ["revenue"], confidenceAt 0⟩]).1.trans (by decide)
  · exact ((assess_team_impacts_spec ["conversion_rate", "revenue"]
      [⟨"c1", "d", 0, ["revenue"], confidenceAt 0⟩]).2.1 "finance" ["revenue"]
      (by decide)).trans (by decide)
  · obtain ⟨ms, -, -, -, hdir, -⟩ :=
      (assess_team_impacts_spec ["conversion_rate", "revenue"]
        [⟨"c1", "d", 0, ["revenue"], confidenceAt 0⟩]).2.2
        ⟨"finance", ["revenue"], "uncertain", "high"⟩ (by decide)
    exact hdir

/-! ### The retry policy of the two LLM calls (claim C3) -/

/-- An attempt outcome the loops treat as retryable: an exception whose
message does not contain `"not found"`.  (A `connectError` or an exception
whose message does contain it short-circuits; a parsed dict returns.) -/
def genericFailure {δ : Type} : BackendOutcome δ → Prop
  | .connectError => False
  | .exn msg => hasNotFound msg = false
  | .parsed _ => False

lemma llmRetryLoop_step {δ ρ : Type} (b : ℕ → String → BackendOutcome δ)
    (onS : δ → ρ) (onE : ρ) (base : String) {k : ℕ} (fuel : ℕ) {msg : String}
    (hb : b k (promptAt base k) = .exn msg) (hnf : hasNotFound msg = false)
    (hk : k < LLM_MAX_RETRIES) :
    llmRetryLoop b onS onE k (fuel + 1) (promptAt base k)
      = llmRetryLoop b onS onE (k + 1) fuel (promptAt base (k + 1)) := by
  simp only [llmRetryLoop, hb, hnf, Bool.false_eq_true, if_false, hk, if_true]
  rfl

lemma llmRetryLoop_advance {δ ρ : Type} (b : ℕ → String → BackendOutcome δ)
    (onS : δ → ρ) (onE : ρ) (base : String) {k : ℕ} (hk : k ≤ LLM_MAX_RETRIES)
    (hgen : ∀ j, j < k → genericFailure (b j (promptAt base j))) :
    llmRetryLoop b onS onE 0 (LLM_MAX_RETRIES + 1) base
      = llmRetryLoop b onS onE k (LLM_MAX_RETRIES + 1 - k) (promptAt base k) := by
  induction k with
  | zero => rfl
  | succ n ih =>
    rw [ih (by omega) (fun j hj => hgen j (by omega))]
    have hgn := hgen n (by omega)
    cases hb : b n (promptAt base n) with
    | connectError => rw [hb] at hgn; exact absurd hgn (by simp [genericFailure])
    | parsed d => rw [hb] at hgn; exact absurd hgn (by simp [genericFailure])
    | exn msg =>
      rw [hb] at hgn
      simp only [genericFailure] at hgn
      have hfuel : LLM_MAX_RETRIES + 1 - n = (LLM_MAX_RETRIES + 1 - (n + 1)) + 1 := by
        omega
      rw [hfuel]
      exact llmRetryLoop_step b onS onE base _ hb hgn (by omega)

lemma llmRetryLoop_result {δ ρ : Type} (b : ℕ → String → BackendOutcome δ)
    (onS : δ → ρ) (onE : ρ) (base : String) {k : ℕ} (hk : k ≤ LLM_MAX_RETRIES)
    (hgen : ∀ j, j < k → genericFailure (b j (promptAt base j))) :
    (b k (promptAt base k) = .connectError →
        llmRetryLoop b onS onE 0 (LLM_MAX_RETRIES + 1) base = .error .ollamaUnavailable)
    ∧ (∀ msg, b k (promptAt base k) = .exn msg → hasNotFound msg = true →
        llmRetryLoop b onS onE 0 (LLM_MAX_RETRIES + 1) base = .error .modelNotFound)
    ∧ (∀ d, b k (promptAt base k) = .parsed d →
        llmRetryLoop b onS onE 0 (LLM_MAX_RETRIES + 1) base = .ok (onS d)) := by
  rw [llmRetryLoop_advance b onS onE base hk hgen]
  obtain ⟨f, hf⟩ : ∃ f, LLM_MAX_RETRIES + 1 - k = f + 1 :=
    ⟨LLM_MAX_RETRIES - k, by omega⟩
  rw [hf]
  refine ⟨?_, ?_, ?_⟩
  · intro hb; simp [llmRetryLoop, hb]
  · intro msg hb hnf; simp [llmRetryLoop, hb, hnf]
  · intro d hb; simp [llmRetryLoop, hb]

lemma llmRetryLoop_exhaust {δ ρ : Type} (b : ℕ → String → BackendOutcome δ)
    (onS : δ → ρ) (onE : ρ) (base : String)
    (hgen : ∀ j, j ≤ LLM_MAX_RETRIES → genericFailure (b j (promptAt base j))) :
    llmRetryLoop b onS onE 0 (LLM_MAX_RETRIES + 1) base = .ok onE := by
  rw [llmRetryLoop_advance b onS onE base (le_refl _) (fun j hj => hgen j (by omega))]
  have h1 : LLM_MAX_RETRIES + 1 - LLM_MAX_RETRIES = 1 := by omega
  rw [h1]
  have hgn := hgen LLM_MAX_RETRIES (le_refl _)
  cases hb : b LLM_MAX_RETRIES (promptAt base LLM_MAX_RETRIES) with
  | connectError => rw [hb] at hgn; exact absurd hgn (by simp [genericFailure])
  | parsed d => rw [hb] at hgn; exact absurd hgn (by simp [genericFailure])
  | exn msg =>
    rw [hb] at hgn
    simp only [genericFailure] at hgn
    simp [llmRetryLoop, hb, hgn]

/-- Counterexample to C3 as stated: an *unparseable backend response* - a
`MalformedResponse` in the claim's taxonomy - whose text happens to
contain `"not found"` (here the backend echoing `"404 page not found"`)
raises `ValueError("Could not parse JSON from response: 404 page not
found")`, whose message matches the `"not found" in str(e).lower()` test,
so the very first attempt propagates `ModelNotFoundError` to the caller
instead of being retried and answered by the rule-based fallback. -/
theorem parse_question_malformed_not_found_counterexample :
    parseQuestion (fun _ _ => .exn (malformedMsg "404 page not found")) "q"
      = .error .modelNotFound
    ∧ parseQuestion (fun _ _ => .exn (malformedMsg "404 page not found")) "q"
      ≠ .ok (ruleBasedParse "q") := by
  have h1 : parseQuestion (fun _ _ => .exn (malformedMsg "404 page not found")) "q"
      = .error .modelNotFound := rfl
  refine ⟨h1, ?_⟩
  rw [h1]
  exact fun h => Except.noConfusion h

/-- **C3 (amended).** In `parse_question` and `generate_recommendation`, a
connection-level failure propagates immediately as backend-unreachable,
and any attempt failure whose exception message contains `"not found"`
(case-insensitively) propagates immediately as model-not-found - the
classification is by message text, so it also fires on a malformed
response embedding that substring; every failure whose message lacks the
substring is retried, with attempt `k` receiving the prompt extended by
`k` copies of the `"Return ONLY JSON"` directive, up to
`LLM_MAX_RETRIES = 2` additional attempts, and on exhaustion the call
returns the deterministic rule-based fallback, never an error. -/
theorem llm_retry_policy
    (bp : ℕ → String → BackendOutcome ParseDict)
    (br : ℕ → String → BackendOutcome RecDict)
    (oStr : List String → String) (cStr : List ConfounderInfo → String)
    (q tr : String) (oc : List String) (confs : List ConfounderInfo)
    (exps : String) :
    (∀ k, k ≤ LLM_MAX_RETRIES →
      (∀ j, j < k → genericFailure (bp j (promptAt (parsePrompt q) j))) →
        (bp k (promptAt (parsePrompt q) k) = .connectError →
            parseQuestion bp q = .error .ollamaUnavailable)
        ∧ (∀ msg, bp k (promptAt (parsePrompt q) k) = .exn msg →
            hasNotFound msg = true → parseQuestion bp q = .error .modelNotFound)
        ∧ (∀ d, bp k (promptAt (parsePrompt q) k) = .parsed d →
            parseQuestion bp q = .ok (mkParsedQuestion d)))
    ∧ ((∀ j, j ≤ LLM_MAX_RETRIES →
          genericFailure (bp j (promptAt (parsePrompt q) j))) →
        parseQuestion bp q = .ok (ruleBasedParse q))
    ∧ (∀ k, k ≤ LLM_MAX_RETRIES →
      (∀ j, j < k → genericFailure
          (br j (promptAt (recPrompt oStr cStr q tr oc confs exps) j))) →
        (br k (promptAt (recPrompt oStr cStr q tr oc confs exps) k) = .connectError →
            generateRecommendation br oStr cStr q tr oc confs exps
              = .error .ollamaUnavailable)
        ∧ (∀ msg,
            br k (promptAt (recPrompt oStr cStr q tr oc confs exps) k) = .exn msg →
            hasNotFound msg = true →
            generateRecommendation br oStr cStr q tr oc confs exps
              = .error .modelNotFound)
        ∧ (∀ d,
            br k (promptAt (recPrompt oStr cStr q tr oc confs exps) k) = .parsed d →
            generateRecommendation br oStr cStr q tr oc confs exps
              = .ok (enforceConfounderRule confs d)))
    ∧ ((∀ j, j ≤ LLM_MAX_RETRIES →
          genericFailure (br j (promptAt (recPrompt oStr cStr q tr oc confs exps) j))) →
        generateRecommendation br oStr cStr q tr oc confs exps
          = .ok (ruleBasedRecommendation confs oc)) := by
  refine ⟨?_, ?_, ?_, ?_⟩
  · intro k hk hgen
    exact llmRetryLoop_result bp mkParsedQuestion (ruleBasedParse q)
      (parsePrompt q) hk hgen
  · intro hgen
    exact llmRetryLoop_exhaust bp mkParsedQuestion (ruleBasedParse q)
      (parsePrompt q) hgen
  · intro k hk hgen
    exact llmRetryLoop_result br (enforceConfounderRule confs)
      (ruleBasedRecommendation confs oc)
      (recPrompt oStr cStr q tr oc confs exps) hk hgen
  · intro hgen
    exact llmRetryLoop_exhaust br (enforceConfounderRule confs)
      (ruleBasedRecommendation confs oc)
      (recPrompt oStr cStr q tr oc confs exps) hgen

/-- Witness for the amended C3: a backend whose first attempt fails
generically and whose second attempt hits a connection error propagates
backend-unreachable from `parse_question`; a backend that fails
generically on all three attempts of `generate_recommendation` ends in
the rule-based fallback, not an error. -/
theorem llm_retry_policy_witness :
    parseQuestion
        (fun k _ => if k = 0 then .exn (malformedMsg "bad") else .connectError) "q"
      = .error .ollamaUnavailable
    ∧ generateRecommendation
        (fun _ _ => .exn (malformedMsg "bad")) (fun _ => "") (fun _ => "")
        "q" "t" ["m"] [] ""
      = .ok (ruleBasedRecommendation [] ["m"]) := by
  constructor
  · have h := (llm_retry_policy
      (fun k _ => if k = 0 then .exn (malformedMsg "bad") else .connectError)
      (fun _ _ => .exn (malformedMsg "bad")) (fun _ => "") (fun _ => "")
      "q" "t" ["m"] [] "").1 1 (by decide)
      (fun j hj => by
        have hj0 : j = 0 := by omega
        subst hj0
        exact (by decide : hasNotFound (malformedMsg "bad") = false))
    exact h.1 rfl
  · exact (llm_retry_policy
      (fun k _ => if k = 0 then .exn (malformedMsg "bad") else .connectError)
      (fun _ _ => .exn (malformedMsg "bad")) (fun _ => "") (fun _ => "")
      "q" "t" ["m"] [] "").2.2.2
      (fun j hj => (by decide : hasNotFound (malformedMsg "bad") = false))

/-! ### Outcomes of the parsed question (claim C9) -/

/-- Counterexample to C9 as stated: on the primary backend path the
outcomes list is taken from the backend dict unchecked
(`result.get("outcomes", [])`), so a successful backend response with an
empty outcomes list yields a `ParsedQuestion` whose outcomes list is
empty. -/
theorem parse_question_empty_outcomes_counterexample :
    parseQuestion
        (fun _ _ => .parsed ⟨some "cut prices", some [], some "should_we"⟩) "q"
      = .ok ⟨"cut prices", [], "should_we"⟩
    ∧ (⟨"cut prices", [], "should_we"⟩ : ParsedQuestion).outcomes = [] :=
  ⟨rfl, rfl⟩

/-- **C9 (amended).** Every `ParsedQuestion` produced on the rule-based
fallback path has a non-empty outcomes list; on the primary backend path
the outcomes list is exactly the backend dict's `outcomes` value
(defaulting to the empty list when the key is absent), and may therefore
be empty. -/
theorem parse_question_outcomes_amended
    (bp : ℕ → String → BackendOutcome ParseDict) (q : String) :
    ((∀ j, j ≤ LLM_MAX_RETRIES →
        genericFailure (bp j (promptAt (parsePrompt q) j))) →
      parseQuestion bp q = .ok (ruleBasedParse q)
      ∧ (ruleBasedParse q).outcomes ≠ [])
    ∧ (∀ k, k ≤ LLM_MAX_RETRIES →
        (∀ j, j < k → genericFailure (bp j (promptAt (parsePrompt q) j))) →
        ∀ d, bp k (promptAt (parsePrompt q) k) = .parsed d →
          parseQuestion bp q = .ok (mkParsedQuestion d)
          ∧ (mkParsedQuestion d).outcomes = d.outcomes.getD []) := by
  constructor
  · intro hgen
    exact ⟨llmRetryLoop_exhaust bp mkParsedQuestion (ruleBasedParse q)
      (parsePrompt q) hgen, ruleBasedParse_outcomes_ne_nil q⟩
  · intro k hk hgen d hb
    exact ⟨(llmRetryLoop_result bp mkParsedQuestion (ruleBasedParse q)
      (parsePrompt q) hk hgen).2.2 d hb, rfl⟩

/-- Witness for the amended C9: the fallback path on a backend that always
fails generically gives non-empty outcomes, and a primary-path success
hands through the backend's outcomes list verbatim. -/
theorem parse_question_outcomes_amended_witness :
    parseQuestion (fun _ _ => .exn (malformedMsg "oops")) "Should we ship?"
      = .ok (ruleBasedParse "Should we ship?")
    ∧ (ruleBasedParse "Should we ship?").outcomes ≠ []
    ∧ parseQuestion
        (fun _ _ => .parsed ⟨some "t", some ["revenue"], none⟩) "Should we ship?"
      = .ok (mkParsedQuestion ⟨some "t", some ["revenue"], none⟩) := by
  obtain ⟨h1, h2⟩ := (parse_question_outcomes_amended
    (fun _ _ => .exn (malformedMsg "oops")) "Should we ship?").1
    (fun j _ => (by decide : hasNotFound (malformedMsg "oops") = false))
  refine ⟨h1, h2, ?_⟩
  exact ((parse_question_outcomes_amended
    (fun _ _ => .parsed ⟨some "t", some ["revenue"], none⟩) "Should we ship?").2
    0 (by decide) (fun j hj => absurd hj (by omega)) _ rfl).1

/-! ### The safety invariant of the whole pipeline (claim C1) -/

lemma llmRetryLoop_ok {δ ρ : Type} (b : ℕ → String → BackendOutcome δ)
    (onS : δ → ρ) (onE : ρ) :
    ∀ (fuel k : ℕ) (p : String) (r : ρ),
      llmRetryLoop b onS onE k fuel p = .ok r → (∃ d, r = onS d) ∨ r = onE := by
  intro fuel
  induction fuel with
  | zero =>
    intro k p r h
    simp only [llmRetryLoop] at h
    exact Or.inr (Except.ok.inj h).symm
  | succ f ih =>
    intro k p r h
    simp only [llmRetryLoop] at h
    cases hb : b k p with
    | connectError => rw [hb] at h; cases h
    | parsed d =>
      rw [hb] at h
      exact Or.inl ⟨d, (Except.ok.inj h).symm⟩
    | exn msg =>
      rw [hb] at h
      dsimp only at h
      by_cases hnf : hasNotFound msg = true
      · rw [if_pos hnf] at h; cases h
      · rw [if_neg hnf] at h
        by_cases hk : k < LLM_MAX_RETRIES
        · rw [if_pos hk] at h
          exact ih (k + 1) _ r h
        · rw [if_neg hk] at h
          exact Or.inr (Except.ok.inj h).symm

lemma generateRecommendation_ok_decision_safe
    {br : ℕ → String → BackendOutcome RecDict}
    {oStr : List String → String} {cStr : List ConfounderInfo → String}
    {q tr : String} {oc : List String} {confs : List ConfounderInfo}
    {exps : String} {d : RecDict}
    (h : generateRecommendation br oStr cStr q tr oc confs exps = .ok d)
    (hne : confs ≠ []) : d.decision_safe = some false := by
  rcases llmRetryLoop_ok br (enforceConfounderRule confs)
      (ruleBasedRecommendation confs oc) _ _ _ _ h with ⟨d0, rfl⟩ | rfl
  · unfold enforceConfounderRule
    rw [if_neg (by simp [List.isEmpty_iff, hne])]
  · cases confs with
    | nil => exact absurd rfl hne
    | cons c cs => simp [ruleBasedRecommendation]

/-- **C1.** The hard safety invariant of the pipeline: whenever `analyze`
returns a response whose detected-confounder list is non-empty, that
response has `decision_safe = false` - regardless of what the reasoning
backend returned (a backend brief claiming `decision_safe: true` is
overridden), on the primary path and on every fallback path. -/
theorem analyze_confounders_unsafe (env : Env) (q : String) (r : AnalyzeResponse)
    (hok : analyze env q = .ok r) (hne : r.confounders_detected ≠ []) :
    r.decision_safe = false := by
  simp only [analyze] at hok
  split at hok
  · cases hok
  · rename_i parsed hp
    split at hok
    · cases hok
    · rename_i recc hrec
      split at hok
      · obtain rfl := Except.ok.inj hok
        have hne' : (detect_confounders env.parseDate env.refDate env.recentChanges
            parsed.outcomes).confounders ≠ [] := hne
        have hds := generateRecommendation_ok_decision_safe hrec hne'
        show recc.decision_safe.getD _ = false
        rw [hds]
        rfl
      · obtain rfl := Except.ok.inj hok
        have hne' : (detect_confounders env.parseDate env.refDate env.recentChanges
            parsed.outcomes).confounders ≠ [] := hne
        have hds := generateRecommendation_ok_decision_safe hrec hne'
        show recc.decision_safe.getD _ = false
        rw [hds]
        rfl

/-- Witness for C1: a full pipeline run in which the backend brief claims
`decision_safe: true` while one same-day change overlaps the outcomes; the
returned response carries the confounder and `decision_safe = false`. -/
theorem analyze_confounders_unsafe_witness :
    analyze
        { decisionId := "D", createdAt := 0
          parseBackend := fun _ _ =>
            .parsed ⟨some "t", some ["conversion_rate"], some "should_we"⟩
          recBackend := fun _ _ =>
            .parsed ⟨some true, some "HIGH", some "r", some "PROCEED", none, none, none⟩
          retrieval := .emptyIndex
          kpiLoads := fun _ => none
          recentChanges := [.ok ⟨none, none, "2026-02-01", ["conversion_rate"]⟩]
          parseDate := fun _ => some 0
          refDate := 0
          outcomesStr := fun _ => ""
          confsStr := fun _ => ""
          auditError := none } "q"
      = .ok
        { decision_id := "D", question := "q", treatment := "t"
          outcomes := ["conversion_rate"]
          decision_safe := false, confidence_level := "HIGH"
          suggested_action := "PROCEED", reasoning := "r"
          action_details := none
          confounders_detected :=
            [⟨"unknown", "Unknown change", 0, ["conversion_rate"], confidenceAt 0⟩]
          monitoring_required := none, stop_loss_triggers := none
          team_impacts := some [⟨"growth", ["conversion_rate"], "uncertain", "high"⟩]
          warnings := some ["No documents indexed. Run ingest_documents.py"]
          created_at := 0 }
    ∧ ([⟨"unknown", "Unknown change", 0, ["conversion_rate"], confidenceAt 0⟩] :
        List ConfounderInfo) ≠ []
    ∧ ({ decision_id := "D", question := "q", treatment := "t"
         outcomes := ["conversion_rate"]
         decision_safe := false, confidence_level := "HIGH"
         suggested_action := "PROCEED", reasoning := "r"
         action_details := none
         confounders_detected :=
           [⟨"unknown", "Unknown change", 0, ["conversion_rate"], confidenceAt 0⟩]
         monitoring_required := none, stop_loss_triggers := none
         team_impacts := some [⟨"growth", ["conversion_rate"], "uncertain", "high"⟩]
         warnings := some ["No documents indexed. Run ingest_documents.py"]
         created_at := 0 } : AnalyzeResponse).decision_safe = false := by
  refine ⟨rfl, by simp, ?_⟩
  exact analyze_confounders_unsafe
    { decisionId := "D", createdAt := 0
      parseBackend := fun _ _ =>
        .parsed ⟨some "t", some ["conversion_rate"], some "should_we"⟩
      recBackend := fun _ _ =>
        .parsed ⟨some true, some "HIGH", some "r", some "PROCEED", none, none, none⟩
      retrieval := .emptyIndex
      kpiLoads := fun _ => none
      recentChanges := [.ok ⟨none, none, "2026-02-01", ["conversion_rate"]⟩]
      parseDate := fun _ => some 0
      refDate := 0
      outcomesStr := fun _ => ""
      confsStr := fun _ => ""
      auditError := none } "q"
    { decision_id := "D", question := "q", treatment := "t"
      outcomes := ["conversion_rate"]
      decision_safe := false, confidence_level := "HIGH"
      suggested_action := "PROCEED", reasoning := "r"
      action_details := none
      confounders_detected :=
        [⟨"unknown", "Unknown change", 0, ["conversion_rate"], confidenceAt 0⟩]
      monitoring_required := none, stop_loss_triggers := none
      team_impacts := some [⟨"growth", ["conversion_rate"], "uncertain", "high"⟩]
      warnings := some ["No documents indexed. Run ingest_documents.py"]
      created_at := 0 } rfl (by simp)

/-! ### Collaborator degradation is non-fatal (claim C8) -/

/-- **C8.** Retrieval and audit-store failures never fail `analyze`: a
retrieval failure is caught inside `retrieve_context`, which returns
normally carrying exactly the warning `"Document retrieval error: " +
str(e)`, and any successful `analyze` run under that failure carries the
warning in its warnings list; a failing audit write leaves every response
field unchanged except `warnings`, to which exactly
`"Decision logging failed"` is appended, and the caller still receives the
otherwise-complete response. -/
theorem analyze_collaborator_degradation (env : Env) (q msg : String) :
    (retrieveContext env.kpiLoads (.raises msg)).warnings
        = ["Document retrieval error: " ++ msg]
    ∧ (∀ r, analyze { env with retrieval := .raises msg } q = .ok r →
        ∃ w, r.warnings = some w ∧ ("Document retrieval error: " ++ msg) ∈ w)
    ∧ (∀ (amsg : String) (r' : AnalyzeResponse),
        analyze { env with auditError := some amsg } q = .ok r' →
        ∃ r, analyze { env with auditError := none } q = .ok r
          ∧ r'.decision_id = r.decision_id
          ∧ r'.question = r.question
          ∧ r'.treatment = r.treatment
          ∧ r'.outcomes = r.outcomes
          ∧ r'.decision_safe = r.decision_safe
          ∧ r'.confidence_level = r.confidence_level
          ∧ r'.suggested_action = r.suggested_action
          ∧ r'.reasoning = r.reasoning
          ∧ r'.action_details = r.action_details
          ∧ r'.confounders_detected = r.confounders_detected
          ∧ r'.monitoring_required = r.monitoring_required
          ∧ r'.stop_loss_triggers = r.stop_loss_triggers
          ∧ r'.team_impacts = r.team_impacts
          ∧ r'.created_at = r.created_at
          ∧ r'.warnings = some ((r.warnings.getD []) ++ ["Decision logging failed"])) := by
  refine ⟨rfl, ?_, ?_⟩
  · intro r hok
    simp only [analyze] at hok
    split at hok
    · cases hok
    · rename_i parsed hp
      split at hok
      · cases hok
      · rename_i recc hrec
        split at hok
        · obtain rfl := Except.ok.inj hok
          exact ⟨_, rfl, List.mem_cons_self _ _⟩
        · obtain rfl := Except.ok.inj hok
          exact ⟨_, rfl, List.mem_append_left _ (List.mem_cons_self _ _)⟩
  · intro amsg r' hok
    simp only [analyze] at hok ⊢
    split at hok
    · cases hok
    · rename_i parsed hp
      split at hok
      · cases hok
      · rename_i recc hrec
        obtain rfl := Except.ok.inj hok
        exact ⟨_, rfl, rfl, rfl, rfl, rfl, rfl, rfl, rfl, rfl, rfl, rfl, rfl,
          rfl, rfl, rfl, rfl⟩

/-- Witness for C8: a concrete run with a raising retrieval collaborator
carries the retrieval warning, and the same run with a raising audit store
only gains the `"Decision logging failed"` warning while `decision_safe`
is unchanged. -/
theorem analyze_collaborator_degradation_witness :
    (retrieveContext (fun _ => none) (.raises "boom")).warnings
      = ["Document retrieval error: " ++ "boom"]
    ∧ (∃ w, ({ decision_id := "D", question := "q", treatment := "t"
               outcomes := ["conversion_rate"]
               decision_safe := true, confidence_level := "LOW"
               suggested_action := "WAIT", reasoning := ""
               action_details := none
               confounders_detected := []
               monitoring_required := none, stop_loss_triggers := none
               team_impacts := some [⟨"growth", ["conversion_rate"], "uncertain", "low"⟩]
               warnings := some ["Document retrieval error: boom"]
               created_at := 0 } : AnalyzeResponse).warnings = some w
          ∧ ("Document retrieval error: " ++ "boom") ∈ w) := by
  have henv := analyze_collaborator_degradation
    { decisionId := "D", createdAt := 0
      parseBackend := fun _ _ =>
        .parsed ⟨some "t", some ["conversion_rate"], some "should_we"⟩
      recBackend := fun _ _ => .parsed ⟨none, none, none, none, none, none, none⟩
      retrieval := .emptyIndex
      kpiLoads := fun _ => none
      recentChanges := []
      parseDate := fun _ => some 0
      refDate := 0
      outcomesStr := fun _ => ""
      confsStr := fun _ => ""
      auditError := none } "q" "boom"
  exact ⟨henv.1, henv.2.1
    { decision_id := "D", question := "q", treatment := "t"
      outcomes := ["conversion_rate"]
      decision_safe := true, confidence_level := "LOW"
      suggested_action := "WAIT", reasoning := ""
      action_details := none
      confounders_detected := []
      monitoring_required := none, stop_loss_triggers := none
      team_impacts := some [⟨"growth", ["conversion_rate"], "uncertain", "low"⟩]
      warnings := some ["Document retrieval error: boom"]
      created_at := 0 } rfl⟩

/-! ### Defaults of the assembled response (claim C10) -/

lemma detect_decision_safe_false {pd : String → Option ℤ} {rd : ℤ}
    {changes : List ChangeInput} {oc : List String}
    (h : (detect_confounders pd rd changes oc).confounders ≠ []) :
    (detect_confounders pd rd changes oc).decision_safe = false := by
  simp only [detect_confounders] at h ⊢
  rw [decide_eq_false_iff_not]
  intro hlen
  exact h (List.length_eq_zero.mp hlen)

/-- **C10.** Every successful `analyze` response takes its core decision
fields from the synthesizer dict with fixed substitutes for omitted keys:
`decision_safe` falls back to the confounder detector's `decision_safe`,
`confidence_level` to `"LOW"`, `suggested_action` to `"WAIT"` and
`reasoning` to `""`; consequently a brief missing `decision_safe` can
never mark a run with detected confounders as safe, while a brief missing
`suggested_action` silently becomes `"WAIT"`. -/
theorem analyze_brief_defaults (env : Env) (q : String) (r : AnalyzeResponse)
    (hok : analyze env q = .ok r) :
    ∃ (parsed : ParsedQuestion) (recc : RecDict),
      parseQuestion env.parseBackend q = .ok parsed
      ∧ generateRecommendation env.recBackend env.outcomesStr env.confsStr q
          parsed.treatment parsed.outcomes
          (detect_confounders env.parseDate env.refDate env.recentChanges
            parsed.outcomes).confounders
          (retrieveContext env.kpiLoads env.retrieval).relevant_experiments = .ok recc
      ∧ r.decision_safe = recc.decision_safe.getD
          (detect_confounders env.parseDate env.refDate env.recentChanges
            parsed.outcomes).decision_safe
      ∧ r.confidence_level = recc.confidence_level.getD "LOW"
      ∧ r.suggested_action = recc.suggested_action.getD "WAIT"
      ∧ r.reasoning = recc.reasoning.getD ""
      ∧ (recc.decision_safe = none → r.confounders_detected ≠ [] →
          r.decision_safe = false)
      ∧ (recc.suggested_action = none → r.suggested_action = "WAIT") := by
  simp only [analyze] at hok
  split at hok
  · cases hok
  · rename_i parsed hp
    split at hok
    · cases hok
    · rename_i recc hrec
      refine ⟨parsed, recc, hp, hrec, ?_⟩
      split at hok <;> obtain rfl := Except.ok.inj hok <;>
        refine ⟨rfl, rfl, rfl, rfl, fun hnone hne => ?_, fun hna => ?_⟩ <;>
        [skip; (show recc.suggested_action.getD "WAIT" = "WAIT"; rw [hna]; rfl);
         skip; (show recc.suggested_action.getD "WAIT" = "WAIT"; rw [hna]; rfl)]
      · show recc.decision_safe.getD _ = false
        rw [hnone]
        exact detect_decision_safe_false hne
      · show recc.decision_safe.getD _ = false
        rw [hnone]
        exact detect_decision_safe_false hne

/-- Witness for C10: a backend brief with every key absent, no recent
changes - the assembled response gets `decision_safe` from the detector
(`true`), confidence `"LOW"`, action `"WAIT"` and empty reasoning. -/
theorem analyze_brief_defaults_witness :
    analyze
        { decisionId := "D", createdAt := 0
          parseBackend := fun _ _ =>
            .parsed ⟨some "t", some ["conversion_rate"], some "should_we"⟩
          recBackend := fun _ _ => .parsed ⟨none, none, none, none, none, none, none⟩
          retrieval := .emptyIndex
          kpiLoads := fun _ => none
          recentChanges := []
          parseDate := fun _ => some 0
          refDate := 0
          outcomesStr := fun _ => ""
          confsStr := fun _ => ""
          auditError := none } "q"
      = .ok
        { decision_id := "D", question := "q", treatment := "t"
          outcomes := ["conversion_rate"]
          decision_safe := true, confidence_level := "LOW"
          suggested_action := "WAIT", reasoning := ""
          action_details := none
          confounders_detected := []
          monitoring_required := none, stop_loss_triggers := none
          team_impacts := some [⟨"growth", ["conversion_rate"], "uncertain", "low"⟩]
          warnings := some ["No documents indexed. Run ingest_documents.py"]
          created_at := 0 }
    ∧ ({ decision_id := "D", question := "q", treatment := "t"
         outcomes := ["conversion_rate"]
         decision_safe := true, confidence_level := "LOW"
         suggested_action := "WAIT", reasoning := ""
         action_details := none
         confounders_detected := []
         monitoring_required := none, stop_loss_triggers := none
         team_impacts := some [⟨"growth", ["conversion_rate"], "uncertain", "low"⟩]
         warnings := some ["No documents indexed. Run ingest_documents.py"]
         created_at := 0 } : AnalyzeResponse).suggested_action = "WAIT" := by
  constructor
  · rfl
  · obtain ⟨parsed, recc, hp, hrec, -, -, -, -, -, hact⟩ :=
      analyze_brief_defaults
        { decisionId := "D", createdAt := 0
          parseBackend := fun _ _ =>
            .parsed ⟨some "t", some ["conversion_rate"], some "should_we"⟩
          recBackend := fun _ _ => .parsed ⟨none, none, none, none, none, none, none⟩
          retrieval := .emptyIndex
          kpiLoads := fun _ => none
          recentChanges := []
          parseDate := fun _ => some 0
          refDate := 0
          outcomesStr := fun _ => ""
          confsStr := fun _ => ""
          auditError := none } "q"
        { decision_id := "D", question := "q", treatment := "t"
          outcomes := ["conversion_rate"]
          decision_safe := true, confidence_level := "LOW"
          suggested_action := "WAIT", reasoning := ""
          action_details := none
          confounders_detected := []
          monitoring_required := none, stop_loss_triggers := none
          team_impacts := some [⟨"growth", ["conversion_rate"], "uncertain", "low"⟩]
          warnings := some ["No documents indexed. Run ingest_documents.py"]
          created_at := 0 } rfl
    obtain rfl : parsed = ⟨"t", ["conversion_rate"], "should_we"⟩ :=
      (Except.ok.inj hp).symm
    obtain rfl : recc = ⟨none, none, none, none, none, none, none⟩ :=
      (Except.ok.inj hrec).symm
    exact hact rfl

end CauseWay
